import Mathlib

/-!
Verification of the schuko tracing core (tracing.go + trace2go/root.go).

We shallowly embed the data model and the operations of the tracer
registry / root-tracer lifecycle as executable Lean definitions and prove
the specified properties about them.  Go's package-level mutable state
(root tracer, named-tracer table, selector, adapter registry, the
`sync.Once` guard of the lazy root initialization) is modelled as an
explicit state record `GState` threaded through the operations.
-/

namespace Schuko

/-- Trace levels, from tracing.go: `LevelError`, `LevelInfo`, `LevelDebug`
(constants 0, 1, 2 of type `TraceLevel uint8`). -/
inductive TraceLevel
  | error
  | info
  | debug
deriving DecidableEq, Repr

/-- Numeric value of a trace level (the `iota` constants of tracing.go). -/
def TraceLevel.toNat : TraceLevel → Nat
  | .error => 0
  | .info => 1
  | .debug => 2

/-- Lower-casing of a string (Go's strings.ToLower), written as a
character-wise map so that it evaluates by kernel reduction. -/
def toLowerStr (s : String) : String :=
  String.mk (s.data.map Char.toLower)

/-- TraceLevelFromString (tracing.go lines 80-90): case-insensitive match of
"debug", "info", "error"; any other string (including "") yields LevelInfo. -/
def traceLevelFromString (sl : String) : TraceLevel :=
  match toLowerStr sl with
  | "debug" => TraceLevel.debug
  | "info" => TraceLevel.info
  | "error" => TraceLevel.error
  | _ => TraceLevel.info

/-- Kinds of concrete `tracing.Trace` implementations the core manipulates:
the bare-bones fallback (`_BareBonesTrace`, root.go), the no-op tracer
(`noOpTrace`, tracing.go), and tracers produced by a registered backend
adapter (identified by its registry key; external collaborators, modelled
as canonical level-filtering tracers). -/
inductive TraceKind
  | bareBones
  | noOp
  | adapterTrace (adKey : String)
deriving DecidableEq, Repr

/-- A tracer instance.  `id` models Go pointer identity (each factory call
produces a fresh id).  `out` is the content of the attached sink, `stderrLog`
the content written to the process error stream, `redirected` records whether
SetOutput was called.  `level` is the stored level; the level-rigid kinds
(bare-bones, no-op) ignore it. -/
structure Trace where
  id : Nat
  kind : TraceKind
  level : TraceLevel
  out : List String
  stderrLog : List String
  redirected : Bool
deriving DecidableEq, Repr

/-- GetTraceLevel: `_BareBonesTrace.GetTraceLevel` always returns LevelError
(root.go line 324); `noOpTrace.GetTraceLevel` returns LevelError
(tracing.go line 322); adapter-built tracers report their stored level. -/
def Trace.getTraceLevel (t : Trace) : TraceLevel :=
  match t.kind with
  | .bareBones => TraceLevel.error
  | .noOp => TraceLevel.error
  | .adapterTrace _ => t.level

/-- SetTraceLevel: a no-op on `_BareBonesTrace` (root.go line 321) and on
`noOpTrace` (tracing.go line 321); adapter-built tracers store the level. -/
def Trace.setTraceLevel (t : Trace) (l : TraceLevel) : Trace :=
  match t.kind with
  | .adapterTrace _ => { t with level := l }
  | _ => t

/-- SetOutput redirects the tracer to a fresh sink (root.go lines 328-330);
we model attaching a new empty buffer. -/
def Trace.setOutput (t : Trace) : Trace :=
  { t with redirected := true, out := [] }

/-- Errorf.  `_BareBonesTrace.Errorf` (root.go lines 309-315): with no
redirect, prepends "[ERROR] " and appends a newline on stderr; redirected, it
writes the formatted message verbatim to the sink.  `noOpTrace.Errorf` does
nothing.  Adapter tracers emit errors unconditionally (level ≥ LevelError
always holds). -/
def Trace.errorf (t : Trace) (msg : String) : Trace :=
  match t.kind with
  | .bareBones =>
      if t.redirected then { t with out := t.out ++ [msg] }
      else { t with stderrLog := t.stderrLog ++ ["[ERROR] " ++ msg ++ "\x0a"] }
  | .noOp => t
  | .adapterTrace _ => { t with out := t.out ++ [msg] }

/-- Infof: a no-op on `_BareBonesTrace` (root.go line 305) and `noOpTrace`;
adapter tracers emit iff their level is at least LevelInfo. -/
def Trace.infof (t : Trace) (msg : String) : Trace :=
  match t.kind with
  | .adapterTrace _ =>
      if 1 ≤ t.level.toNat then { t with out := t.out ++ [msg] } else t
  | _ => t

/-- Debugf: a no-op on `_BareBonesTrace` (root.go line 302) and `noOpTrace`;
adapter tracers emit iff their level is at least LevelDebug. -/
def Trace.debugf (t : Trace) (msg : String) : Trace :=
  match t.kind with
  | .adapterTrace _ =>
      if 2 ≤ t.level.toNat then { t with out := t.out ++ [msg] } else t
  | _ => t

/-- P: `_BareBonesTrace.P` returns the receiver unchanged (root.go line 318);
`noOpTrace.P` likewise.  Adapter behavior is backend-specific and unused by
the claims; the canonical model returns the receiver. -/
def Trace.p (t : Trace) (_k : String) (_v : String) : Trace := t

/-- A fresh `_BareBonesTrace` value (`&_BareBonesTrace{}`): no redirect,
empty logs. -/
def freshBareBones (nid : Nat) : Trace :=
  { id := nid, kind := TraceKind.bareBones, level := TraceLevel.error,
    out := [], stderrLog := [], redirected := false }

/-- A fresh `noOpTrace` value. -/
def freshNoOp (nid : Nat) : Trace :=
  { id := nid, kind := TraceKind.noOp, level := TraceLevel.error,
    out := [], stderrLog := [], redirected := false }

/-! Association-list utilities modelling Go maps (string keys). -/

/-- Lookup in an association list (a Go map read returning value and `ok`). -/
def alookup {α : Type} : List (String × α) → String → Option α
  | [], _ => none
  | (k, v) :: r, n => if k = n then some v else alookup r n

/-- Store into an association list (a Go map write): replaces the binding of
an existing key, else appends. -/
def ainsert {α : Type} : List (String × α) → String → α → List (String × α)
  | [], n, v => [(n, v)]
  | (k, u) :: r, n, v => if k = n then (k, v) :: r else (k, u) :: ainsert r n v

/-- Update the value bound to a key in place, if present. -/
def aupdate {α : Type} : List (String × α) → String → (α → α) → List (String × α)
  | [], _, _ => []
  | (k, u) :: r, n, f => if k = n then (k, f u) :: r else (k, u) :: aupdate r n f

/-! The adapter registry (tracing.go). -/

/-- A registered backend adapter: a zero-argument factory.  We model the
factory's behavior by the kind of tracer it produces and that tracer's
default level. -/
structure Adapter where
  produces : TraceKind
  defaultLevel : TraceLevel
deriving DecidableEq, Repr

/-- Apply an adapter factory, producing a fresh tracer with a fresh id. -/
def Adapter.make (a : Adapter) (nid : Nat) : Trace :=
  { id := nid, kind := a.produces, level := a.defaultLevel,
    out := [], stderrLog := [], redirected := false }

/-- The adapter registry `knownTraceAdapters : map[string]Adapter`.  A Go
function value may be nil, so entries carry `Option Adapter` (`some none`
models a key bound to a nil factory). -/
abbrev AdapterRegistry := List (String × Option Adapter)

/-- The built-in "nop" adapter registered in the initial map
(tracing.go lines 162-166). -/
def nopAdapter : Adapter :=
  { produces := TraceKind.noOp, defaultLevel := TraceLevel.error }

/-- Initial contents of `knownTraceAdapters`: only key "nop". -/
def initialRegistry : AdapterRegistry := [("nop", some nopAdapter)]

/-- Go map indexing `m[k]` without the `ok` flag: a missing key yields the
zero value (a nil factory). -/
def goIndex (m : AdapterRegistry) (k : String) : Option Adapter :=
  match alookup m k with
  | some v => v
  | none => none

/-- RegisterTraceAdapter (tracing.go lines 176-184), registry part:
`current, ok := m[key]; if !ok || current == nil || replace { m[key] = adapter }`.
(The facade Infof emission it performs is modelled in the global operation
`registerOp` below.) -/
def registerTraceAdapter (key : String) (adapter : Option Adapter)
    (replace : Bool) (m : AdapterRegistry) : AdapterRegistry :=
  match alookup m key with
  | none => ainsert m key adapter
  | some none => ainsert m key adapter
  | some (some _) => if replace then ainsert m key adapter else m

/-! Configuration (the schuko.Configuration contract, read side). -/

/-- A Configuration: string-keyed string values.  GetString of an absent key
returns "" (the behavior of the configuration adapters used with this core). -/
abbrev Conf := List (String × String)

/-- Configuration.GetString. -/
def getString (c : Conf) (k : String) : String :=
  match alookup c k with
  | some v => v
  | none => ""

/-- GetAdapterFromConfiguration (tracing.go lines 196-209).  Note that the
source never reads `optKey`: it reads "tracing.adapter", then "tracing", and
on a miss falls back to `knownTraceAdapters["bare"]` (which is nil whenever
no adapter was registered under "bare" — the initial registry has none). -/
def getAdapterFromConfiguration (reg : AdapterRegistry) (conf : Conf)
    (optKey : String) : Option Adapter :=
  let _ := optKey
  let s0 := getString conf "tracing.adapter"
  let adapterPackage := if s0 = "" then getString conf "tracing" else s0
  match alookup reg adapterPackage with
  | some (some a) => some a
  | _ => goIndex reg "bare"

/-- getValue (root.go lines 334-348): probe `prefixKey+key`,
`prefixKey+"."+key`, `prefixKey+"/"+key` in order; first non-empty string
value wins, else "". -/
def getValue (conf : Conf) (prefixKey : String) (key : String) : String :=
  let v1 := getString conf (prefixKey ++ key)
  if v1 ≠ "" then v1
  else
    let v2 := getString conf (prefixKey ++ "." ++ key)
    if v2 ≠ "" then v2
    else
      let v3 := getString conf (prefixKey ++ "/" ++ key)
      if v3 ≠ "" then v3 else ""

/-! The root tracer (trace2go/root.go). -/

/-- The rootTracer struct during option application, before `init` has run
(fields `config`, `prefixKey`, `optAdapterKey`, `replaceChildren`; the
embedded Trace and the remembered adapter are not yet set). -/
structure RootBuilder where
  config : Conf
  prefixKey : String
  optAdapterKey : String
  replaceChildren : Bool
deriving DecidableEq, Repr

/-- newRootTracer (root.go lines 159-165): only `config` and `prefixKey`
are populated; `optAdapterKey` and `replaceChildren` keep their zero values. -/
def newRootBuilder (conf : Conf) (prefixKey : String) : RootBuilder :=
  { config := conf, prefixKey := prefixKey, optAdapterKey := "",
    replaceChildren := false }

/-- The rootTracer struct after `init`: the embedded delegate Trace and the
remembered adapter are set. -/
structure RootTracer where
  delegate : Trace
  config : Conf
  prefixKey : String
  optAdapterKey : String
  adapter : Adapter
  replaceChildren : Bool
deriving DecidableEq, Repr

/-- The bare-bones fallback factory substituted by `rootTracer.init` when
adapter resolution yields nil (root.go lines 169-173). -/
def bareAdapter : Adapter :=
  { produces := TraceKind.bareBones, defaultLevel := TraceLevel.error }

/-- Adapter resolution as performed by `rootTracer.init` (root.go lines
168-173): GetAdapterFromConfiguration, with a nil result replaced by the
bare-bones factory. -/
def resolvedAdapter (reg : AdapterRegistry) (conf : Conf) (optKey : String) :
    Adapter :=
  match getAdapterFromConfiguration reg conf optKey with
  | some a => a
  | none => bareAdapter

/-- rootTracer.init (root.go lines 167-179): resolve the adapter (falling
back to bare-bones), remember it, build the delegate trace, and set its
level from `getValue(config, prefixKey, "root")` only when that string is
non-empty.  Returns the configured root tracer and the next fresh id. -/
def initRootTracer (reg : AdapterRegistry) (b : RootBuilder) (nid : Nat) :
    RootTracer × Nat :=
  let a := resolvedAdapter reg b.config b.optAdapterKey
  let tr := a.make nid
  let l := getValue b.config b.prefixKey "root"
  let tr := if l ≠ "" then tr.setTraceLevel (traceLevelFromString l) else tr
  ({ delegate := tr, config := b.config, prefixKey := b.prefixKey,
     optAdapterKey := b.optAdapterKey, adapter := a,
     replaceChildren := b.replaceChildren }, nid + 1)

/-- The dynamic type of the package-level `root tracing.Trace` variable when
non-nil: this package only ever assigns `&_BareBonesTrace{}` or a
`*rootTracer` to it. -/
inductive RootVal
  | bb (t : Trace)
  | cfg (r : RootTracer)
deriving DecidableEq, Repr

/-- Whether a root value is a configured `*rootTracer` (the type assertion
`root.(*rootTracer)` succeeding). -/
def RootVal.isCfg : RootVal → Bool
  | .bb _ => false
  | .cfg _ => true

/-- A `tracing.Trace` interface value as returned by the trace2go entry
points: nil, a reference to the package root, or a child tracer. -/
inductive TVal
  | nilT
  | rootRef (r : RootVal)
  | child (t : Trace)
deriving DecidableEq, Repr

/-- Convert the `root` variable (possibly nil) into the interface value
`Root()` returns. -/
def tvalOfRoot : Option RootVal → TVal
  | none => TVal.nilT
  | some r => TVal.rootRef r

/-- The named-tracer table `selectableTracers : map[string]tracing.Trace`. -/
abbrev Table := List (String × Trace)

/-- The package-level mutable state of tracing.go and trace2go/root.go:
the root tracer, the `initRoot sync.Once` flag, the named-tracer table, the
globally installed selector (true when the trace2go selector is installed),
the adapter registry, and a fresh-id counter modelling allocation. -/
structure GState where
  root : Option RootVal
  onceFired : Bool
  tracers : Table
  selectorInstalled : Bool
  registry : AdapterRegistry
  nextId : Nat
deriving DecidableEq, Repr

/-- The initial process state: no root, Once unfired, empty table, the
default no-op selector, the initial registry. -/
def initialState : GState :=
  { root := none, onceFired := false, tracers := [],
    selectorInstalled := false, registry := initialRegistry, nextId := 0 }

/-- Root (root.go lines 43-52): if the root variable is nil, run the
`sync.Once`-guarded initializer (which sets it to a fresh bare-bones tracer
only if the Once has not fired yet), then return the root variable. -/
def rootOp (s : GState) : (Option RootVal) × GState :=
  match s.root with
  | some r => (some r, s)
  | none =>
      if s.onceFired then (none, s)
      else
        let t := freshBareBones s.nextId
        (some (RootVal.bb t),
         { s with root := some (RootVal.bb t), onceFired := true,
                  nextId := s.nextId + 1 })

/-- setTracer (root.go lines 260-268): store the tracer under the name; if
a previous tracer occupied the slot, the stored tracer inherits the previous
tracer's trace level (the Go code stores first and then mutates the stored
object through the alias; the net table content is the same).  Returns the
previous occupant and the new table. -/
def setTracer (name : String) (tr : Trace) (tbl : Table) :
    Option Trace × Table :=
  match alookup tbl name with
  | none => (none, ainsert tbl name tr)
  | some prev =>
      (some prev, ainsert tbl name (tr.setTraceLevel prev.getTraceLevel))

/-- The cascade-replace loop of ConfigureRoot (root.go lines 80-89), run
over the key set of the named-tracer table.  For each key other than
"root": the new root's delegate logs an error, a fresh child is built from
the new root's adapter, `setTracer` stores it (inheriting the previous
occupant's level), and the stored child logs a welcome Infof.  (The
`prevCh.Infof` call mutates the evicted tracer, which is no longer
reachable, so it is not modelled.  Go map iteration order is unspecified;
the model iterates in list order, which only affects log interleaving.) -/
def cascadeChildren (ad : Adapter) :
    List String → Trace → Table → Nat → Trace × Table × Nat
  | [], rdel, tbl, nid => (rdel, tbl, nid)
  | k :: ks, rdel, tbl, nid =>
      if k = "root" then cascadeChildren ad ks rdel tbl nid
      else
        let rdel := rdel.errorf ("replacing tracer \x22" ++ k ++ "\x22")
        let ch := ad.make nid
        let tbl := (setTracer k ch tbl).2
        let tbl := aupdate tbl k (fun t => t.infof "welcome to the new tracer")
        cascadeChildren ad ks rdel tbl (nid + 1)

/-- The root options (root.go lines 95-136).  `ReplaceTracers` and
`AdapterKey` are the options defined by the package; since `RootOption` is
an open function type `func(*rootTracer) error`, a client-supplied option
may fail, which `failing` models (it returns an error and, like any option,
can touch only the not-yet-installed builder, no shared state). -/
inductive RootOption
  | replaceTracers (b : Bool)
  | adapterKey (k : String)
  | failing (e : String)
deriving DecidableEq, Repr

/-- Apply one root option to the builder. -/
def applyOption (b : RootBuilder) : RootOption → Except String RootBuilder
  | .replaceTracers v => Except.ok { b with replaceChildren := v }
  | .adapterKey k => Except.ok { b with optAdapterKey := k }
  | .failing e => Except.error e

/-- The option loop of ConfigureRoot (root.go lines 58-62): apply options in
order, returning the first error. -/
def applyOptions (b : RootBuilder) : List RootOption → Except String RootBuilder
  | [] => Except.ok b
  | o :: os =>
      match applyOption b o with
      | Except.error e => Except.error e
      | Except.ok b => applyOptions b os

/-- The installation phase of ConfigureRoot (root.go lines 63-92), after
the option loop has succeeded with builder `b`: run `init` and install the
new root.  When the previous root was a configured rootTracer the new root
logs a welcome Infof, and if the replace-children option is set, the
cascade loop replaces every named tracer other than "root".  (The
`root.Infof` on the evicted previous root is dropped as unobservable.) -/
def configureRootInstall (b : RootBuilder) (s : GState) :
    Option String × GState :=
  let p := initRootTracer s.registry b s.nextId
  let r := p.1
  let s := { s with nextId := p.2 }
  match s.root with
  | none => (none, { s with root := some (RootVal.cfg r) })
  | some (RootVal.bb _) => (none, { s with root := some (RootVal.cfg r) })
  | some (RootVal.cfg _) =>
      let rdel := r.delegate.infof "welcome to the new root tracer"
      if r.replaceChildren then
        let q := cascadeChildren r.adapter (s.tracers.map Prod.fst)
                   rdel s.tracers s.nextId
        (none,
         { s with root := some (RootVal.cfg { r with delegate := q.1 }),
                  tracers := q.2.1, nextId := q.2.2 })
      else
        (none, { s with root := some (RootVal.cfg { r with delegate := rdel }) })

/-- ConfigureRoot (root.go lines 55-93).  Build a rootTracer builder from
the configuration and prefix, apply the options (an option error is
returned immediately, before `init` and before any shared state is
touched), then run the installation phase.  Returns the error result and
the new state. -/
def configureRoot (conf : Conf) (prefixKey : String) (opts : List RootOption)
    (s : GState) : Option String × GState :=
  match applyOptions (newRootBuilder conf prefixKey) opts with
  | Except.error e => (some e, s)
  | Except.ok b => configureRootInstall b s

/-- GetTracer (root.go lines 206-213): return the table entry for the name,
if any, else nil. -/
def getTracer (name : String) (s : GState) : Option Trace :=
  alookup s.tracers name

/-- NewTracer (root.go lines 231-251).  Calls Root(); if the current root is
a configured rootTracer, a fresh tracer is built from its adapter and its
level is set from `TraceLevelFromString(getValue(config, prefixKey, name))`
unconditionally; the tracer is stored unless the slot is occupied and
`replace` is false.  Otherwise NewTracer returns `(Root(), nil)` without
touching the table.  Result: ((returned tracer, previous occupant), state). -/
def newTracer (name : String) (replace : Bool) (s : GState) :
    (TVal × Option Trace) × GState :=
  let p0 := rootOp s
  match p0.1 with
  | some (RootVal.cfg r) =>
      let s := p0.2
      let tr := r.adapter.make s.nextId
      let s := { s with nextId := s.nextId + 1 }
      let level := getValue r.config r.prefixKey name
      let tr := tr.setTraceLevel (traceLevelFromString level)
      match alookup s.tracers name with
      | some prev =>
          if replace then
            ((TVal.child tr, some prev),
             { s with tracers := ainsert s.tracers name tr })
          else
            ((TVal.child tr, some prev), s)
      | none =>
          ((TVal.child tr, none),
           { s with tracers := ainsert s.tracers name tr })
  | _ =>
      let p1 := rootOp p0.2
      ((tvalOfRoot p1.1, none), p1.2)

/-- GetOrCreateTracer (root.go lines 217-223): return the table entry for
the name if present, else create one via `NewTracer(name, false)`. -/
def getOrCreateTracer (name : String) (s : GState) : TVal × GState :=
  match getTracer name s with
  | some child => (TVal.child child, s)
  | none =>
      let p := newTracer name false s
      (p.1.1, p.2)

/-- Select through the tracing facade (tracing.go lines 150-157): with the
trace2go selector installed (root.go lines 183-195) it delegates to
GetOrCreateTracer; with no selector installed the default no-op selector
returns a no-op tracer. -/
def selectOp (name : String) (s : GState) : TVal × GState :=
  if s.selectorInstalled then getOrCreateTracer name s
  else (TVal.child (freshNoOp 0), s)

/-- Teardown (root.go lines 272-281): clear the named-tracer table, clear
the root variable, and detach the selector.  The `initRoot` Once is not
reset. -/
def teardown (s : GState) : GState :=
  { s with tracers := [], root := none, selectorInstalled := false }

/-- SetTraceSelector (tracing.go lines 130-134), specialized to installing
the trace2go selector (true) or detaching it (false). -/
def setSelectorOp (b : Bool) (s : GState) : GState :=
  { s with selectorInstalled := b }

/-- The facade Infof `tracing.Infof` = `Select("root").Infof(msg)`
(tracing.go lines 289-291).  With the trace2go selector installed the
emission lands on whatever tracer GetOrCreateTracer("root") yields (a table
child, or the root when it is not a configured rootTracer); the value-level
state is updated where that tracer lives.  (When Select would return a nil
interface — root nil with the Once already fired — the Go code would fault
on the nil method call; no claim exercises that path and the model leaves
the state unchanged there.) -/
def facadeInfof (msg : String) (s : GState) : GState :=
  if s.selectorInstalled then
    let p := getOrCreateTracer "root" s
    let s := p.2
    match p.1 with
    | TVal.child _ =>
        { s with tracers := aupdate s.tracers "root" (fun t => t.infof msg) }
    | TVal.rootRef (RootVal.bb _) =>
        { s with root :=
            match s.root with
            | some (RootVal.bb b) => some (RootVal.bb (b.infof msg))
            | r => r }
    | TVal.rootRef (RootVal.cfg _) =>
        { s with root :=
            match s.root with
            | some (RootVal.cfg r) =>
                some (RootVal.cfg { r with delegate := r.delegate.infof msg })
            | r => r }
    | TVal.nilT => s
  else s

/-- RegisterTraceAdapter as a global operation (tracing.go lines 176-184):
the facade Infof announcement followed by the guarded registry update. -/
def registerOp (key : String) (adapter : Option Adapter) (replace : Bool)
    (s : GState) : GState :=
  let s := facadeInfof ("registering tracing type " ++ key) s
  { s with registry := registerTraceAdapter key adapter replace s.registry }

/-- Reachable process states: the initial state closed under the public
operations of the core. -/
inductive Reach : GState → Prop
  | init : Reach initialState
  | root {s} : Reach s → Reach (rootOp s).2
  | cfgRoot {s} (conf : Conf) (prefixKey : String) (opts : List RootOption) :
      Reach s → Reach (configureRoot conf prefixKey opts s).2
  | newT {s} (name : String) (replace : Bool) :
      Reach s → Reach (newTracer name replace s).2
  | getT {s} (name : String) : Reach s → Reach (getOrCreateTracer name s).2
  | sel {s} (name : String) : Reach s → Reach (selectOp name s).2
  | tear {s} : Reach s → Reach (teardown s)
  | setSel {s} (b : Bool) : Reach s → Reach (setSelectorOp b s)
  | reg {s} (key : String) (adapter : Option Adapter) (replace : Bool) :
      Reach s → Reach (registerOp key adapter replace s)

/-- The trace level reported by a returned interface value (GetTraceLevel on
the returned tracer; none when the value is a nil interface). -/
def tvalLevel : TVal → Option TraceLevel
  | TVal.child t => some t.getTraceLevel
  | TVal.rootRef (RootVal.bb t) => some t.getTraceLevel
  | TVal.rootRef (RootVal.cfg r) => some r.delegate.getTraceLevel
  | TVal.nilT => none

/-! Concrete scenario data used by counterexamples and witnesses. -/

/-- A level-storing test adapter (like the gotestingadapter used in the
repository's tests), registered under key "test"; its tracers default to
LevelError. -/
def testAdapter : Adapter :=
  { produces := TraceKind.adapterTrace "test", defaultLevel := TraceLevel.error }

/-- State after registering the test adapter. -/
def regState : GState := registerOp "test" (some testAdapter) true initialState

/-- Configuration selecting the test adapter, with no level keys. -/
def c4conf : Conf := [("tracing.adapter", "test")]

/-- State after ConfigureRoot(c4conf, "LEVEL"). -/
def c4state : GState := (configureRoot c4conf "LEVEL" [] regState).2

/-- The root tracer installed in `c4state`. -/
def c4root : RootTracer :=
  (initRootTracer regState.registry (newRootBuilder c4conf "LEVEL")
    regState.nextId).1

/-- Configuration selecting the test adapter and giving tracer "a" level
Debug. -/
def c5conf : Conf := [("tracing.adapter", "test"), ("LEVEL.a", "Debug")]

/-- State with a configured root (test adapter) built from `c5conf`. -/
def c5cfgState : GState := (configureRoot c5conf "LEVEL" [] regState).2

/-- The root tracer installed in `c5cfgState`. -/
def c5root : RootTracer :=
  (initRootTracer regState.registry (newRootBuilder c5conf "LEVEL")
    regState.nextId).1

/-- State with the named tracer "a" (level Debug) in the table. -/
def c5popState : GState := (newTracer "a" false c5cfgState).2

/-- Reconfiguration with cascade replace under an empty configuration: the
adapter string resolves to nothing and the new root falls back to the
bare-bones factory. -/
def c5bareState : GState :=
  (configureRoot [] "" [RootOption.replaceTracers true] c5popState).2

/-- Reconfiguration with cascade replace under a configuration that again
resolves the level-storing test adapter. -/
def c5testState : GState :=
  (configureRoot [("tracing.adapter", "test")] ""
    [RootOption.replaceTracers true] c5popState).2

/-- The tracer stored under "a" in `c5popState` (level Debug). -/
def c5prev : Trace :=
  (c5root.adapter.make c5cfgState.nextId).setTraceLevel
    (traceLevelFromString (getValue c5conf "LEVEL" "a"))

/-- State for the Select idempotency scenario: configured root with the
trace2go selector installed. -/
def c9state : GState := setSelectorOp true c4state

/-- Whether the installed root is a configured rootTracer (the Go type
assertion `root.(*rootTracer)` succeeding on the root variable). -/
def rootIsCfg (s : GState) : Bool :=
  match s.root with
  | some (RootVal.cfg _) => true
  | _ => false

/-- Invariant: whenever the installed root is not a configured rootTracer,
the named-tracer table is empty.  (Entries are only ever inserted while a
configured root is installed, and every transition away from a configured
root also clears the table.) -/
def emptyWhenUnconfigured (s : GState) : Prop :=
  rootIsCfg s = false → s.tracers = []

/-! Helper lemmas: association lists. -/

theorem alookup_ainsert_self {α : Type} (m : List (String × α)) (k : String)
    (v : α) : alookup (ainsert m k v) k = some v := by
  induction m with
  | nil => simp [ainsert, alookup]
  | cons h r ih =>
      obtain ⟨k0, v0⟩ := h
      by_cases hk : k0 = k
      · simp [ainsert, alookup, hk]
      · simp [ainsert, alookup, hk, ih]

theorem alookup_ainsert_ne {α : Type} (m : List (String × α)) (k j : String)
    (v : α) (hne : j ≠ k) : alookup (ainsert m k v) j = alookup m j := by
  induction m with
  | nil => simp [ainsert, alookup, Ne.symm hne]
  | cons h r ih =>
      obtain ⟨k0, v0⟩ := h
      by_cases hk : k0 = k
      · subst hk
        simp [ainsert, alookup, Ne.symm hne]
      · simp [ainsert, alookup, hk, ih]

theorem alookup_aupdate_self {α : Type} (m : List (String × α)) (k : String)
    (f : α → α) : alookup (aupdate m k f) k = (alookup m k).map f := by
  induction m with
  | nil => simp [aupdate, alookup]
  | cons h r ih =>
      obtain ⟨k0, v0⟩ := h
      by_cases hk : k0 = k
      · simp [aupdate, alookup, hk]
      · simp [aupdate, alookup, hk, ih]

theorem alookup_aupdate_ne {α : Type} (m : List (String × α)) (k j : String)
    (f : α → α) (hne : j ≠ k) : alookup (aupdate m k f) j = alookup m j := by
  induction m with
  | nil => simp [aupdate, alookup]
  | cons h r ih =>
      obtain ⟨k0, v0⟩ := h
      by_cases hk : k0 = k
      · subst hk
        simp [aupdate, alookup, Ne.symm hne]
      · simp [aupdate, alookup, hk, ih]

theorem alookup_mem_keys {α : Type} {m : List (String × α)} {k : String}
    {v : α} (h : alookup m k = some v) : k ∈ m.map Prod.fst := by
  induction m with
  | nil => simp [alookup] at h
  | cons hd r ih =>
      obtain ⟨k0, v0⟩ := hd
      by_cases hk : k0 = k
      · simp [hk]
      · simp [alookup, hk] at h
        simp [ih h]

/-! Helper lemmas: tracer operations. -/

theorem infof_kind (t : Trace) (msg : String) : (t.infof msg).kind = t.kind := by
  unfold Trace.infof
  cases h : t.kind
  · simp [h]
  · simp [h]
  · simp only [h]
    split_ifs <;> simp [h]

theorem infof_getTraceLevel (t : Trace) (msg : String) :
    (t.infof msg).getTraceLevel = t.getTraceLevel := by
  unfold Trace.infof Trace.getTraceLevel
  cases h : t.kind
  · simp [h]
  · simp [h]
  · simp only [h]
    split_ifs <;> simp [h]

theorem setTraceLevel_kind (t : Trace) (l : TraceLevel) :
    (t.setTraceLevel l).kind = t.kind := by
  unfold Trace.setTraceLevel
  cases h : t.kind <;> simp [h]

theorem setTraceLevel_adapter {t : Trace} {ak : String} (l : TraceLevel)
    (h : t.kind = TraceKind.adapterTrace ak) :
    (t.setTraceLevel l).getTraceLevel = l := by
  unfold Trace.setTraceLevel Trace.getTraceLevel
  simp [h]

theorem make_kind (a : Adapter) (nid : Nat) : (a.make nid).kind = a.produces :=
  rfl

/-! Helper lemmas: the cascade-replace loop. -/

theorem setTracer_lookup_ne (j k : String) (tr : Trace) (tbl : Table)
    (hne : k ≠ j) : alookup (setTracer j tr tbl).2 k = alookup tbl k := by
  unfold setTracer
  cases alookup tbl j <;> simp [alookup_ainsert_ne _ _ _ _ hne]

theorem cascade_lookup_not_mem (ad : Adapter) (k : String) :
    ∀ (ks : List String) (rdel : Trace) (tbl : Table) (nid : Nat),
      k ∉ ks →
      alookup (cascadeChildren ad ks rdel tbl nid).2.1 k = alookup tbl k := by
  intro ks
  induction ks with
  | nil => intro rdel tbl nid _; rfl
  | cons j ks ih =>
      intro rdel tbl nid hmem
      have hkj : k ≠ j := fun h => hmem (h ▸ List.mem_cons_self j ks)
      have hks : k ∉ ks := fun h => hmem (List.mem_cons_of_mem j h)
      unfold cascadeChildren
      by_cases hj : j = "root"
      · simp only [hj, if_pos rfl]
        exact ih rdel tbl nid hks
      · simp only [if_neg hj]
        rw [ih _ _ _ hks, alookup_aupdate_ne _ _ _ _ hkj,
            setTracer_lookup_ne _ _ _ _ hkj]

theorem cascade_lookup_mem (ad : Adapter) (k : String) (hk : k ≠ "root") :
    ∀ (ks : List String) (rdel : Trace) (tbl : Table) (nid : Nat)
      (prev : Trace),
      ks.Nodup → k ∈ ks → alookup tbl k = some prev →
      ∃ n', alookup (cascadeChildren ad ks rdel tbl nid).2.1 k =
        some (((ad.make n').setTraceLevel prev.getTraceLevel).infof
          "welcome to the new tracer") := by
  intro ks
  induction ks with
  | nil => intro rdel tbl nid prev _ hmem; exact absurd hmem (List.not_mem_nil k)
  | cons j ks ih =>
      intro rdel tbl nid prev hnd hmem hprev
      have hnd' : ks.Nodup := (List.nodup_cons.mp hnd).2
      unfold cascadeChildren
      by_cases hj : j = "root"
      · subst hj
        have hmem' : k ∈ ks := by
          rcases List.mem_cons.mp hmem with h | h
          · exact absurd h hk
          · exact h
        simp only [if_pos rfl]
        exact ih rdel tbl nid prev hnd' hmem' hprev
      · simp only [if_neg hj]
        by_cases hkj : k = j
        · subst hkj
          have hnotks : k ∉ ks := (List.nodup_cons.mp hnd).1
          refine ⟨nid, ?_⟩
          rw [cascade_lookup_not_mem _ _ _ _ _ _ hnotks]
          have hset : (setTracer k (ad.make nid) tbl).2 =
              ainsert tbl k ((ad.make nid).setTraceLevel prev.getTraceLevel) := by
            unfold setTracer
            rw [hprev]
          rw [hset, alookup_aupdate_self, alookup_ainsert_self]
          rfl
        · have hmem' : k ∈ ks := by
            rcases List.mem_cons.mp hmem with h | h
            · exact absurd h hkj
            · exact h
          have hstep : alookup (aupdate (setTracer j (ad.make nid) tbl).2 j
              (fun t => t.infof "welcome to the new tracer")) k =
              some prev := by
            rw [alookup_aupdate_ne _ _ _ _ hkj,
                setTracer_lookup_ne _ _ _ _ hkj]
            exact hprev
          exact ih _ _ _ prev hnd' hmem' hstep

/-! Helper lemmas: the table-empty-when-unconfigured invariant. -/

theorem rootOp_root (s : GState) : (rootOp s).2.root = (rootOp s).1 := by
  unfold rootOp
  cases hr : s.root
  · split_ifs <;> simp [hr]
  · exact hr

theorem ewu_of_cfg {s : GState} (h : rootIsCfg s = true) :
    emptyWhenUnconfigured s := fun hc => absurd h (by simp [hc])

theorem inv_rootOp {s : GState} (h : emptyWhenUnconfigured s) :
    emptyWhenUnconfigured (rootOp s).2 := by
  unfold rootOp
  cases hr : s.root with
  | none =>
      split_ifs with hf
      · exact h
      · intro _
        exact h (by simp [rootIsCfg, hr])
  | some r => exact h

theorem configureRoot_state (conf : Conf) (prefixKey : String)
    (opts : List RootOption) (s : GState) :
    (configureRoot conf prefixKey opts s).2 = s ∨
    rootIsCfg (configureRoot conf prefixKey opts s).2 = true := by
  unfold configureRoot
  cases hopt : applyOptions (newRootBuilder conf prefixKey) opts with
  | error e => left; rfl
  | ok b =>
      right
      obtain ⟨sroot, sonce, stracers, ssel, sreg, snid⟩ := s
      cases sroot with
      | none => rfl
      | some rv =>
          cases rv with
          | bb t => rfl
          | cfg old =>
              simp only [configureRootInstall]
              split_ifs <;> rfl

theorem inv_configureRoot {s : GState} (conf : Conf) (prefixKey : String)
    (opts : List RootOption) (h : emptyWhenUnconfigured s) :
    emptyWhenUnconfigured (configureRoot conf prefixKey opts s).2 := by
  rcases configureRoot_state conf prefixKey opts s with heq | hcfg
  · rw [heq]; exact h
  · exact ewu_of_cfg hcfg

theorem inv_newTracer {s : GState} (n : String) (rep : Bool)
    (h : emptyWhenUnconfigured s) :
    emptyWhenUnconfigured (newTracer n rep s).2 := by
  simp only [newTracer]
  cases hp : (rootOp s).1 with
  | none => exact inv_rootOp (inv_rootOp h)
  | some rv =>
      cases rv with
      | bb t => exact inv_rootOp (inv_rootOp h)
      | cfg r =>
          have hroot : (rootOp s).2.root = some (RootVal.cfg r) := by
            rw [rootOp_root, hp]
          cases hl : alookup (rootOp s).2.tracers n with
          | some prev =>
              split_ifs <;> exact ewu_of_cfg (by simp [rootIsCfg, hroot])
          | none => exact ewu_of_cfg (by simp [rootIsCfg, hroot])

theorem inv_getOrCreateTracer {s : GState} (n : String)
    (h : emptyWhenUnconfigured s) :
    emptyWhenUnconfigured (getOrCreateTracer n s).2 := by
  simp only [getOrCreateTracer, getTracer]
  cases hl : alookup s.tracers n with
  | some c => exact h
  | none => exact inv_newTracer n false h

theorem inv_selectOp {s : GState} (n : String) (h : emptyWhenUnconfigured s) :
    emptyWhenUnconfigured (selectOp n s).2 := by
  simp only [selectOp]
  split_ifs
  · exact inv_getOrCreateTracer n h
  · exact h

theorem inv_teardown {s : GState} (_h : emptyWhenUnconfigured s) :
    emptyWhenUnconfigured (teardown s) := fun _ => rfl

theorem inv_setSelectorOp {s : GState} (b : Bool)
    (h : emptyWhenUnconfigured s) :
    emptyWhenUnconfigured (setSelectorOp b s) := h

theorem inv_facadeInfof {s : GState} (msg : String)
    (h : emptyWhenUnconfigured s) :
    emptyWhenUnconfigured (facadeInfof msg s) := by
  simp only [facadeInfof]
  split_ifs with hsel
  · have h2 := inv_getOrCreateTracer "root" h
    split
    · intro hc
      have ht := h2 hc
      show aupdate (getOrCreateTracer "root" s).2.tracers "root" _ = []
      rw [ht]
      rfl
    · intro hc
      cases hr : (getOrCreateTracer "root" s).2.root with
      | none => exact h2 (by simp [rootIsCfg, hr])
      | some rv =>
          cases rv with
          | bb b => exact h2 (by simp [rootIsCfg, hr])
          | cfg q =>
              exfalso
              simp [rootIsCfg, hr] at hc
    · intro hc
      cases hr : (getOrCreateTracer "root" s).2.root with
      | none => exact h2 (by simp [rootIsCfg, hr])
      | some rv =>
          cases rv with
          | bb b => exact h2 (by simp [rootIsCfg, hr])
          | cfg q =>
              exfalso
              simp [rootIsCfg, hr] at hc
    · exact h2
  · exact h

theorem inv_registerOp {s : GState} (key : String) (adapter : Option Adapter)
    (replace : Bool) (h : emptyWhenUnconfigured s) :
    emptyWhenUnconfigured (registerOp key adapter replace s) :=
  inv_facadeInfof _ h

/-- Every reachable state satisfies the invariant: when the installed root
is not a configured rootTracer, the named-tracer table is empty. -/
theorem reach_emptyWhenUnconfigured {s : GState} (h : Reach s) :
    emptyWhenUnconfigured s := by
  induction h with
  | init => exact fun _ => rfl
  | root _ ih => exact inv_rootOp ih
  | cfgRoot conf prefixKey opts _ ih => exact inv_configureRoot conf prefixKey opts ih
  | newT name replace _ ih => exact inv_newTracer name replace ih
  | getT name _ ih => exact inv_getOrCreateTracer name ih
  | sel name _ ih => exact inv_selectOp name ih
  | tear _ ih => exact inv_teardown ih
  | setSel b _ ih => exact inv_setSelectorOp b ih
  | reg key adapter replace _ ih => exact inv_registerOp key adapter replace ih

theorem applyOptions_preserves (opts : List RootOption) :
    ∀ (b0 b : RootBuilder), applyOptions b0 opts = Except.ok b →
      b.config = b0.config ∧ b.prefixKey = b0.prefixKey := by
  induction opts with
  | nil =>
      intro b0 b h
      simp [applyOptions] at h
      subst h
      exact ⟨rfl, rfl⟩
  | cons o os ih =>
      intro b0 b h
      cases o with
      | replaceTracers v =>
          simp only [applyOptions, applyOption] at h
          have hres := ih _ _ h
          exact ⟨hres.1, hres.2⟩
      | adapterKey k =>
          simp only [applyOptions, applyOption] at h
          have hres := ih _ _ h
          exact ⟨hres.1, hres.2⟩
      | failing e => simp [applyOptions, applyOption] at h

/-! Claim theorems. -/

/-- C1 (code_bug evidence): in the process history Root(); Teardown();
Root(), the first Root() call lazily creates the bare-bones root, but after
Teardown() clears the root reference, the next Root() call returns nil —
the `sync.Once` guard has already fired, so the re-initialization closure
never runs — contradicting the claim (and Root's own documentation) that it
returns a non-nil bare-bones tracer. -/
theorem c1_root_nil_after_teardown :
    (rootOp initialState).1 = some (RootVal.bb (freshBareBones 0)) ∧
    (rootOp (teardown (rootOp initialState).2)).1 = none :=
  ⟨rfl, rfl⟩

/-- C2 (code_bug evidence): GetAdapterFromConfiguration ignores its optKey
argument.  With a configuration mapping the option key "k" to the
registered adapter key "nop", the function does not return the "nop"
adapter (as its documentation and the claim state) but falls through to the
unregistered "bare" entry and returns a nil adapter. -/
theorem c2_optKey_ignored :
    getString [("k", "nop")] "k" = "nop" ∧
    alookup initialRegistry "nop" = some (some nopAdapter) ∧
    getAdapterFromConfiguration initialRegistry [("k", "nop")] "k" = none :=
  ⟨rfl, rfl, rfl⟩

/-- C3 (code_bug evidence): when the resolved adapter-type string is not a
registered key, GetAdapterFromConfiguration evaluates
`knownTraceAdapters["bare"]`; since no adapter is ever registered under
"bare", the Go map read yields the zero value and the function returns a
nil adapter — not the non-nil built-in bare factory the claim (and the
function's documentation) promises. -/
theorem c3_bare_fallback_is_nil :
    getString [("tracing.adapter", "zzz")] "tracing.adapter" = "zzz" ∧
    alookup initialRegistry "zzz" = none ∧
    alookup initialRegistry "bare" = none ∧
    getAdapterFromConfiguration initialRegistry
      [("tracing.adapter", "zzz")] "" = none :=
  ⟨rfl, rfl, rfl, rfl⟩

theorem configureRootInstall_installs (b : RootBuilder) (s : GState) :
    ∃ r : RootTracer,
      (configureRootInstall b s).1 = none ∧
      (configureRootInstall b s).2.root = some (RootVal.cfg r) ∧
      r.config = b.config ∧ r.prefixKey = b.prefixKey ∧
      r.adapter = resolvedAdapter s.registry b.config b.optAdapterKey ∧
      r.replaceChildren = b.replaceChildren := by
  obtain ⟨sroot, sonce, stracers, ssel, sreg, snid⟩ := s
  cases sroot with
  | none => exact ⟨_, rfl, rfl, rfl, rfl, rfl, rfl⟩
  | some rv =>
      cases rv with
      | bb t => exact ⟨_, rfl, rfl, rfl, rfl, rfl, rfl⟩
      | cfg old =>
          simp only [configureRootInstall]
          split_ifs
          · exact ⟨_, rfl, rfl, rfl, rfl, rfl, rfl⟩
          · exact ⟨_, rfl, rfl, rfl, rfl, rfl, rfl⟩

/-- C6: ConfigureRoot is atomic with respect to option failure.  If the
option loop returns an error, ConfigureRoot returns exactly that error and
the global state is unchanged (root, table, selector, registry, allocation
counter all identical).  If the option loop succeeds, ConfigureRoot returns
nil and installs a configured root built from the given configuration,
prefix, and the adapter resolved from it. -/
theorem c6_configureRoot_atomic (conf : Conf) (prefixKey : String)
    (opts : List RootOption) (s : GState) :
    (∀ e, applyOptions (newRootBuilder conf prefixKey) opts = Except.error e →
      configureRoot conf prefixKey opts s = (some e, s)) ∧
    (∀ b, applyOptions (newRootBuilder conf prefixKey) opts = Except.ok b →
      (configureRoot conf prefixKey opts s).1 = none ∧
      ∃ r : RootTracer,
        (configureRoot conf prefixKey opts s).2.root =
          some (RootVal.cfg r) ∧
        r.config = conf ∧ r.prefixKey = prefixKey ∧
        r.adapter = resolvedAdapter s.registry conf b.optAdapterKey ∧
        r.replaceChildren = b.replaceChildren) := by
  constructor
  · intro e he
    unfold configureRoot
    rw [he]
  · intro b hb
    have hp := applyOptions_preserves opts _ _ hb
    have hcr : configureRoot conf prefixKey opts s = configureRootInstall b s := by
      unfold configureRoot
      rw [hb]
    obtain ⟨r, h1, h2, h3, h4, h5, h6⟩ := configureRootInstall_installs b s
    rw [hcr]
    refine ⟨h1, r, h2, ?_, ?_, ?_, h6⟩
    · rw [h3, hp.1]
      rfl
    · rw [h4, hp.2]
      rfl
    · rw [h5, hp.1]
      rfl

/-- C6 witness: with the failing option the call returns the error and the
initial state unchanged; with no options it succeeds. -/
theorem c6_configureRoot_atomic_witness :
    configureRoot [] "" [RootOption.failing "boom"] initialState =
      (some "boom", initialState) ∧
    (configureRoot [] "" [] initialState).1 = none :=
  ⟨(c6_configureRoot_atomic [] "" [RootOption.failing "boom"]
      initialState).1 "boom" rfl,
   ((c6_configureRoot_atomic [] "" [] initialState).2
      (newRootBuilder [] "") rfl).1⟩

/-- C7: on a bare-bones tracer whose output has been redirected to a sink,
Errorf appends exactly the message to the sink, Debugf and Infof leave the
tracer (and hence the sink) unchanged, GetTraceLevel reports Error, and
SetTraceLevel and P have no effect. -/
theorem c7_bareBones_behavior (t : Trace) (msg m1 m2 : String)
    (l : TraceLevel) (k v : String)
    (hk : t.kind = TraceKind.bareBones) (hr : t.redirected = true) :
    (t.errorf msg).out = t.out ++ [msg] ∧
    t.infof m1 = t ∧ t.debugf m2 = t ∧
    t.getTraceLevel = TraceLevel.error ∧
    t.setTraceLevel l = t ∧ t.p k v = t := by
  unfold Trace.errorf Trace.infof Trace.debugf Trace.getTraceLevel
    Trace.setTraceLevel Trace.p
  simp [hk, hr]

/-- C7 witness: the concrete "boom" scenario of the specification. -/
theorem c7_bareBones_behavior_witness :
    (((freshBareBones 0).setOutput).errorf "boom").out = ["boom"] ∧
    ((freshBareBones 0).setOutput).infof "ignored" =
      (freshBareBones 0).setOutput :=
  ⟨(c7_bareBones_behavior ((freshBareBones 0).setOutput) "boom" "ignored"
      "d" TraceLevel.debug "k" "v" rfl rfl).1,
   (c7_bareBones_behavior ((freshBareBones 0).setOutput) "boom" "ignored"
      "d" TraceLevel.debug "k" "v" rfl rfl).2.1⟩

/-- C8: RegisterTraceAdapter stores the factory exactly when no entry
existed for the key, the existing entry was nil, or replace is true; in all
other cases the registry is left unchanged, so the first non-nil
registration wins over later calls with replace=false. -/
theorem c8_register_policy (key : String) (f : Option Adapter) (rep : Bool)
    (m : AdapterRegistry) :
    ((alookup m key = none ∨ alookup m key = some none ∨ rep = true) →
      alookup (registerTraceAdapter key f rep m) key = some f) ∧
    ((∃ a, alookup m key = some (some a)) → rep = false →
      registerTraceAdapter key f rep m = m) := by
  constructor
  · intro hcond
    unfold registerTraceAdapter
    rcases hcond with h | h | h
    · rw [h]
      exact alookup_ainsert_self m key f
    · rw [h]
      exact alookup_ainsert_self m key f
    · subst h
      cases hl : alookup m key with
      | none => exact alookup_ainsert_self m key f
      | some v =>
          cases v with
          | none => exact alookup_ainsert_self m key f
          | some a =>
              simp only [if_pos rfl, if_true]
              exact alookup_ainsert_self m key f
  · rintro ⟨a, ha⟩ hrep
    unfold registerTraceAdapter
    rw [ha, hrep]
    simp

/-- C8 witness: re-registering "nop" without replace leaves the initial
registry unchanged; registering a fresh key stores the factory. -/
theorem c8_register_policy_witness :
    registerTraceAdapter "nop" (some testAdapter) false initialRegistry =
      initialRegistry ∧
    alookup (registerTraceAdapter "test" (some testAdapter) false
      initialRegistry) "test" = some (some testAdapter) :=
  ⟨(c8_register_policy "nop" (some testAdapter) false initialRegistry).2
      ⟨nopAdapter, rfl⟩ rfl,
   (c8_register_policy "test" (some testAdapter) false initialRegistry).1
      (Or.inl rfl)⟩

/-- C4 counterexample: with a registered adapter whose tracers default to
LevelError and a configuration containing none of the three probed level
keys for name "a", the tracer created by NewTracer reports LevelInfo — its
level was changed by the creation routine, not left at the adapter
default. -/
theorem c4_counterexample :
    testAdapter.defaultLevel = TraceLevel.error ∧
    getValue c4conf "LEVEL" "a" = "" ∧
    tvalLevel (newTracer "a" false c4state).1.1 = some TraceLevel.info ∧
    TraceLevel.info ≠ testAdapter.defaultLevel :=
  ⟨rfl, rfl, by decide, by decide⟩

/-- C4 (amended): NewTracer always applies
SetTraceLevel(TraceLevelFromString(levelString)); when none of the three
probed keys holds a non-empty value the level string is "" and the created
tracer's level becomes Info (for adapters whose tracers store set levels),
regardless of the adapter's default. -/
theorem c4_unset_level_key_gives_info (s : GState) (n : String) (rep : Bool)
    (r : RootTracer) (ak : String)
    (hroot : s.root = some (RootVal.cfg r))
    (hkind : r.adapter.produces = TraceKind.adapterTrace ak)
    (hval : getValue r.config r.prefixKey n = "") :
    tvalLevel (newTracer n rep s).1.1 = some TraceLevel.info := by
  have hro : rootOp s = (some (RootVal.cfg r), s) := by
    unfold rootOp
    rw [hroot]
  have hkind' : (r.adapter.make s.nextId).kind = TraceKind.adapterTrace ak := by
    rw [make_kind, hkind]
  have hlev : ((r.adapter.make s.nextId).setTraceLevel
      (traceLevelFromString (getValue r.config r.prefixKey n))).getTraceLevel =
      traceLevelFromString (getValue r.config r.prefixKey n) :=
    setTraceLevel_adapter _ hkind'
  have hinfo : traceLevelFromString "" = TraceLevel.info := rfl
  rw [hval, hinfo] at hlev
  simp only [newTracer, hro]
  rw [hval, hinfo]
  cases hl : alookup s.tracers n with
  | some prev => split_ifs <;> simp [tvalLevel, hlev]
  | none => simp [tvalLevel, hlev]

/-- C4 witness: the amended statement at the concrete scenario. -/
theorem c4_unset_level_key_gives_info_witness :
    tvalLevel (newTracer "a" false c4state).1.1 = some TraceLevel.info :=
  c4_unset_level_key_gives_info c4state "a" false c4root "test"
    (by rfl) (by rfl) (by rfl)

/-- C10: over any process history, if the installed root tracer is not a
configured rootTracer (it is the lazily created bare-bones fallback), then
NewTracer and GetOrCreateTracer return the root itself for every name —
the same instance for all names — and the state, including the named-tracer
table, is completely unchanged. -/
theorem c10_unconfigured_root_passthrough (s : GState) (t : Trace)
    (hre : Reach s) (hroot : s.root = some (RootVal.bb t)) (n : String)
    (rep : Bool) :
    newTracer n rep s = ((TVal.rootRef (RootVal.bb t), none), s) ∧
    getOrCreateTracer n s = (TVal.rootRef (RootVal.bb t), s) := by
  have hro : rootOp s = (some (RootVal.bb t), s) := by
    unfold rootOp
    rw [hroot]
  have hempty : s.tracers = [] :=
    reach_emptyWhenUnconfigured hre (by simp [rootIsCfg, hroot])
  have hnewAll : ∀ rp, newTracer n rp s =
      ((TVal.rootRef (RootVal.bb t), none), s) := by
    intro rp
    simp [newTracer, hro, tvalOfRoot]
  refine ⟨hnewAll rep, ?_⟩
  simp [getOrCreateTracer, getTracer, hempty, alookup, hnewAll false]

/-- C10 witness: the state after a single auto-initializing Root() call. -/
theorem c10_unconfigured_root_passthrough_witness :
    newTracer "x" true (rootOp initialState).2 =
      ((TVal.rootRef (RootVal.bb (freshBareBones 0)), none),
        (rootOp initialState).2) ∧
    getOrCreateTracer "x" (rootOp initialState).2 =
      (TVal.rootRef (RootVal.bb (freshBareBones 0)),
        (rootOp initialState).2) :=
  c10_unconfigured_root_passthrough (rootOp initialState).2 (freshBareBones 0)
    (Reach.root Reach.init) rfl "x" true

/-- C5 counterexample: starting from a configured (non-bare) root with the
named tracer "a" at level Debug, reconfiguring with ReplaceTracers(true)
under an empty configuration succeeds (the new root falls back to the
bare-bones adapter); the replacement tracer for "a" is bare-bones and its
GetTraceLevel() is Error, not the Debug of the tracer it replaced —
SetTraceLevel on a bare-bones tracer is a no-op. -/
theorem c5_counterexample :
    (alookup c5popState.tracers "a").map Trace.getTraceLevel =
      some TraceLevel.debug ∧
    (configureRoot [] "" [RootOption.replaceTracers true] c5popState).1 =
      none ∧
    (alookup c5bareState.tracers "a").map Trace.kind =
      some TraceKind.bareBones ∧
    (alookup c5bareState.tracers "a").map Trace.getTraceLevel =
      some TraceLevel.error ∧
    TraceLevel.error ≠ TraceLevel.debug :=
  ⟨by decide, by decide, by decide, by decide, by decide⟩

/-- C5 (amended): under ConfigureRoot(conf, prefix, ReplaceTracers(true))
with a configured root installed, every table entry other than "root" is
replaced by a tracer freshly built from the new root's adapter, and the
replacement has SetTraceLevel applied with the replaced tracer's level; its
GetTraceLevel() equals the replaced tracer's level whenever the new root's
adapter produces level-storing tracers (when the new root fell back to the
bare-bones adapter the replacement reports Error instead).  The Nodup
hypothesis reflects that Go map keys are unique. -/
theorem c5_cascade_level_inheritance (s : GState) (conf : Conf)
    (prefixKey k : String) (prev : Trace) (old : RootTracer) (ak : String)
    (hroot : s.root = some (RootVal.cfg old))
    (hnd : (s.tracers.map Prod.fst).Nodup)
    (hk : k ≠ "root")
    (hprev : alookup s.tracers k = some prev)
    (hak : (resolvedAdapter s.registry conf "").produces =
      TraceKind.adapterTrace ak) :
    ∃ t', alookup ((configureRoot conf prefixKey
        [RootOption.replaceTracers true] s).2).tracers k = some t' ∧
      t'.kind = TraceKind.adapterTrace ak ∧
      t'.getTraceLevel = prev.getTraceLevel := by
  obtain ⟨sroot, sonce, stracers, ssel, sreg, snid⟩ := s
  replace hroot : sroot = some (RootVal.cfg old) := hroot
  subst hroot
  obtain ⟨n', hn⟩ := cascade_lookup_mem (resolvedAdapter sreg conf "") k hk
    (stracers.map Prod.fst)
    ((initRootTracer sreg
        { config := conf, prefixKey := prefixKey, optAdapterKey := "",
          replaceChildren := true } snid).1.delegate.infof
      "welcome to the new root tracer")
    stracers (snid + 1) prev hnd (alookup_mem_keys hprev) hprev
  have hred : ((configureRoot conf prefixKey [RootOption.replaceTracers true]
      { root := some (RootVal.cfg old), onceFired := sonce,
        tracers := stracers, selectorInstalled := ssel, registry := sreg,
        nextId := snid }).2).tracers =
      (cascadeChildren (resolvedAdapter sreg conf "")
        (stracers.map Prod.fst)
        ((initRootTracer sreg
            { config := conf, prefixKey := prefixKey, optAdapterKey := "",
              replaceChildren := true } snid).1.delegate.infof
          "welcome to the new root tracer")
        stracers (snid + 1)).2.1 := rfl
  rw [hred]
  refine ⟨_, hn, ?_, ?_⟩
  · rw [infof_kind, setTraceLevel_kind, make_kind]
    exact hak
  · rw [infof_getTraceLevel]
    exact setTraceLevel_adapter _ (by rw [make_kind]; exact hak)

/-- C5 witness: the amended statement at the concrete scenario where the
reconfiguration again resolves the level-storing test adapter; the
replacement for "a" inherits level Debug. -/
theorem c5_cascade_level_inheritance_witness :
    ∃ t', alookup ((configureRoot [("tracing.adapter", "test")] ""
        [RootOption.replaceTracers true] c5popState).2).tracers "a" =
          some t' ∧
      t'.kind = TraceKind.adapterTrace "test" ∧
      t'.getTraceLevel = c5prev.getTraceLevel :=
  c5_cascade_level_inheritance c5popState [("tracing.adapter", "test")] ""
    "a" c5prev c5root "test" (by rfl) (by decide) (by decide) (by rfl)
    (by rfl)

theorem getOrCreate_hit (s : GState) (n : String) (t : Trace)
    (h : alookup s.tracers n = some t) :
    getOrCreateTracer n s = (TVal.child t, s) := by
  simp [getOrCreateTracer, getTracer, h]

theorem getOrCreate_spec (s : GState) (n : String) (r : RootTracer)
    (hroot : s.root = some (RootVal.cfg r)) :
    ∃ t, getOrCreateTracer n s = (TVal.child t, (getOrCreateTracer n s).2) ∧
      alookup (getOrCreateTracer n s).2.tracers n = some t ∧
      (getOrCreateTracer n s).2.root = s.root ∧
      (getOrCreateTracer n s).2.selectorInstalled = s.selectorInstalled := by
  have hro : rootOp s = (some (RootVal.cfg r), s) := by
    unfold rootOp
    rw [hroot]
  cases hl : alookup s.tracers n with
  | some c =>
      have h1 := getOrCreate_hit s n c hl
      rw [h1]
      exact ⟨c, rfl, hl, rfl, rfl⟩
  | none =>
      have h1 : getOrCreateTracer n s =
          (TVal.child ((r.adapter.make s.nextId).setTraceLevel
              (traceLevelFromString (getValue r.config r.prefixKey n))),
           { s with
              tracers := ainsert s.tracers n
                ((r.adapter.make s.nextId).setTraceLevel
                  (traceLevelFromString (getValue r.config r.prefixKey n))),
              nextId := s.nextId + 1 }) := by
        simp [getOrCreateTracer, getTracer, hl, newTracer, hro]
      rw [h1]
      exact ⟨_, rfl, alookup_ainsert_self _ _ _, rfl, rfl⟩

/-- C9: with the trace2go selector installed and a configured root, two
successive Select(n) calls with no intervening mutation return the same
tracer value, leave the state of the second call identical to that of the
first, and the returned tracer is exactly the one stored in the table after
the first call. -/
theorem c9_select_idempotent (s : GState) (n : String) (r : RootTracer)
    (hsel : s.selectorInstalled = true)
    (hroot : s.root = some (RootVal.cfg r)) :
    (selectOp n (selectOp n s).2).1 = (selectOp n s).1 ∧
    (selectOp n (selectOp n s).2).2 = (selectOp n s).2 ∧
    ∃ t, (selectOp n s).1 = TVal.child t ∧
      alookup ((selectOp n s).2).tracers n = some t := by
  obtain ⟨t, h1, h2, _, hsel2⟩ := getOrCreate_spec s n r hroot
  have e1 : selectOp n s = getOrCreateTracer n s := by
    simp [selectOp, hsel]
  have h3 : getOrCreateTracer n (getOrCreateTracer n s).2 =
      (TVal.child t, (getOrCreateTracer n s).2) :=
    getOrCreate_hit _ n t h2
  have e2 : selectOp n (selectOp n s).2 =
      getOrCreateTracer n (getOrCreateTracer n s).2 := by
    rw [e1]
    simp [selectOp, hsel2, hsel]
  refine ⟨?_, ?_, t, ?_, ?_⟩
  · rw [e2, e1, h3, h1]
  · rw [e2, e1, h3, h1]
  · rw [e1, h1]
  · rw [e1]
    exact h2

/-- C9 witness: the concrete configured-root scenario with the selector
installed, at name "x". -/
theorem c9_select_idempotent_witness :
    (selectOp "x" (selectOp "x" c9state).2).1 = (selectOp "x" c9state).1 ∧
    (selectOp "x" (selectOp "x" c9state).2).2 = (selectOp "x" c9state).2 ∧
    ∃ t, (selectOp "x" c9state).1 = TVal.child t ∧
      alookup ((selectOp "x" c9state).2).tracers "x" = some t :=
  c9_select_idempotent c9state "x" c4root rfl (by rfl)

end Schuko
